import Mathlib

/-!
Verification of the biomarker scoring engine (spiral, tapping, reaction-time
and voice scorers) against its specification.

The scorers are embedded over exact rational arithmetic.  JavaScript's
`Math.sqrt` is passed to each scorer as an explicit function argument
`s : ℚ → ℚ`; general theorems assume only the properties of the real square
root that they need (chiefly nonnegativity, `SqrtOK`), and concrete
evaluations instantiate `s` with Mathlib's exact `Rat.sqrt`, which agrees
with the real square root on perfect squares (every concrete input used
below only ever takes square roots of perfect squares of rationals).
The one-decimal rounding that the source applies to the final output record
(`parseFloat(x.toFixed(1))`) is output formatting and is not modelled; all
statements are about the computed scores.  The recommendation text produced
by the external language-model collaborator is modelled as `none`; fixed
fallback/local recommendation strings are modelled verbatim.
-/

namespace Neuro

/-- The property of `Math.sqrt` that the boundedness proofs use:
the result is never negative.  Concrete evaluations instantiate the
square-root parameter with Mathlib's exact `Rat.sqrt`, which agrees with the
real square root on perfect squares of rationals (every concrete input used
below only ever takes square roots of perfect squares). -/
def SqrtOK (s : ℚ → ℚ) : Prop := ∀ x : ℚ, 0 ≤ s x

/-- Three-band risk level shared by all modalities. -/
inductive Risk where
  | Low
  | Moderate
  | High
deriving DecidableEq

/-- Generic risk classifier as the specification states it:
Low if `overall ≥ highCut`, else Moderate if `overall ≥ lowCut`, else High. -/
def classify (overall lowCut highCut : ℚ) : Risk :=
  if highCut ≤ overall then Risk.Low
  else if lowCut ≤ overall then Risk.Moderate
  else Risk.High

/-- Successive differences of a list, `l[i+1] - l[i]`, as produced by
`arr.slice(1).map((v, i) => v - arr[i])` in the source. -/
def diffs (l : List ℚ) : List ℚ := List.zipWith (fun b a => b - a) l.tail l

namespace Spiral

/-- A timestamped 2-D sample point (`{x, y, timestamp}` in the source,
timestamp in milliseconds). -/
structure Point where
  x : ℚ
  y : ℚ
  timestamp : ℚ
deriving DecidableEq

/-- Velocities of consecutive point pairs; a pair is skipped when
`dt = (t2 - t1)/1000 ≤ 0.001` seconds (anti-duplicate guard). -/
def velocities (points : List Point) : List (ℚ × ℚ) :=
  (points.zip points.tail).filterMap fun pq =>
    let dt := (pq.2.timestamp - pq.1.timestamp) / 1000
    if dt > 0.001 then some ((pq.2.x - pq.1.x) / dt, (pq.2.y - pq.1.y) / dt)
    else none

/-- Euclidean norms of consecutive velocity differences. -/
def accelerations (s : ℚ → ℚ) (points : List Point) : List ℚ :=
  let v := velocities points
  (v.zip v.tail).map fun ab =>
    s ((ab.2.1 - ab.1.1) ^ 2 + (ab.2.2 - ab.1.2) ^ 2)

/-- Tremor score: `min(100, RMS(accelerations)/20)` with the source's guards
(0 for fewer than 5 points, fewer than 4 velocities, or no accelerations). -/
def calculateTremor (s : ℚ → ℚ) (points : List Point) : ℚ :=
  if points.length < 5 then 0
  else
    let v := velocities points
    if v.length < 4 then 0
    else
      let a := accelerations s points
      if a.length = 0 then 0
      else
        let rms := s ((a.map fun b => b * b).sum / (a.length : ℚ))
        min 100 (rms / 20)

/-- Jerk magnitude at each interior point: the Euclidean norm of the second
difference of positions. -/
def jerks (s : ℚ → ℚ) (points : List Point) : List ℚ :=
  (points.zip (points.tail.zip points.tail.tail)).map fun tr =>
    let p0 := tr.1
    let p1 := tr.2.1
    let p2 := tr.2.2
    s (((p2.x - p1.x) - (p1.x - p0.x)) ^ 2 + ((p2.y - p1.y) - (p1.y - p0.y)) ^ 2)

/-- Smoothness score: `max(0, 100 - mean(jerk)·5)` where a jerk is the norm of
the second difference of positions; 100 when fewer than 3 points or no jerks. -/
def calculateSmoothness (s : ℚ → ℚ) (points : List Point) : ℚ :=
  if points.length < 3 then 100
  else
    let j := jerks s points
    if j.length = 0 then 100
    else max 0 (100 - (j.sum / (j.length : ℚ)) * 5)

/-- Per-step speed `distance/time` of each consecutive point pair; steps with
nonpositive time are skipped. -/
def speeds (s : ℚ → ℚ) (points : List Point) : List ℚ :=
  (points.zip points.tail).filterMap fun pq =>
    let dist := s ((pq.2.x - pq.1.x) ^ 2 + (pq.2.y - pq.1.y) ^ 2)
    let time := (pq.2.timestamp - pq.1.timestamp) / 1000
    if time > 0 then some (dist / time) else none

/-- Speed score: `max(0, 100 - cv·100)` where `cv` is the coefficient of
variation of the per-step speeds; 0 when fewer than 2 points, no valid steps,
or zero mean speed. -/
def calculateSpeedScore (s : ℚ → ℚ) (points : List Point) : ℚ :=
  if points.length < 2 then 0
  else
    let sp := speeds s points
    if sp.length = 0 then 0
    else
      let meanSpeed := sp.sum / (sp.length : ℚ)
      if meanSpeed = 0 then 0
      else
        let stdDev := s ((sp.map fun x => (x - meanSpeed) ^ 2).sum / (sp.length : ℚ))
        max 0 (100 - stdDev / meanSpeed * 100)

/-- Radial distance of each point from the centroid of all points. -/
def radialDistances (s : ℚ → ℚ) (points : List Point) : List ℚ :=
  let cx := (points.map Point.x).sum / (points.length : ℚ)
  let cy := (points.map Point.y).sum / (points.length : ℚ)
  points.map fun p => s ((p.x - cx) ^ 2 + (p.y - cy) ^ 2)

/-- Regression part of the consistency score, acting on the list of radial
distances: ordinary-least-squares slope of distance against sample index,
with `ssRes` measured about the prediction `slope·i` (the source computes the
residuals without an intercept term); 0 when the slope denominator is 0, 100
when the total variance is 0. -/
def consistencyOfDistances (distances : List ℚ) : ℚ :=
  let n : ℚ := (distances.length : ℚ)
  let sumX := ((List.range distances.length).map fun i : ℕ => (i : ℚ)).sum
  let sumY := distances.sum
  let sumXY := (((List.range distances.length).zip distances).map fun p =>
    (p.1 : ℚ) * p.2).sum
  let sumX2 := ((List.range distances.length).map fun i : ℕ => (i : ℚ) ^ 2).sum
  if n * sumX2 - sumX * sumX = 0 then 0
  else
    let slope := (n * sumXY - sumX * sumY) / (n * sumX2 - sumX * sumX)
    let yMean := sumY / n
    let ssTot := (distances.map fun y => (y - yMean) ^ 2).sum
    if ssTot = 0 then 100
    else
      let ssRes := (((List.range distances.length).zip distances).map fun p =>
        (p.2 - slope * (p.1 : ℚ)) ^ 2).sum
      max 0 ((1 - ssRes / ssTot) * 100)

/-- Consistency score: the no-intercept regression of the radial distances
against sample index; 0 when fewer than 10 points. -/
def calculateConsistency (s : ℚ → ℚ) (points : List Point) : ℚ :=
  if points.length < 10 then 0
  else consistencyOfDistances (radialDistances s points)

/-- Denominator `n·Σx² − (Σx)²` of the ordinary-least-squares slope of a
series against its sample indices. -/
def slopeDenom (ys : List ℚ) : ℚ :=
  (ys.length : ℚ) * ((List.range ys.length).map fun i : ℕ => (i : ℚ) ^ 2).sum -
    ((List.range ys.length).map fun i : ℕ => (i : ℚ)).sum *
      ((List.range ys.length).map fun i : ℕ => (i : ℚ)).sum

/-- Ordinary-least-squares slope of a series against its sample indices. -/
def olsSlope (ys : List ℚ) : ℚ :=
  ((ys.length : ℚ) *
      (((List.range ys.length).zip ys).map fun p => (p.1 : ℚ) * p.2).sum -
    ((List.range ys.length).map fun i : ℕ => (i : ℚ)).sum * ys.sum) /
    slopeDenom ys

/-- Total sum of squares of a series about its mean. -/
def ssTotOf (ys : List ℚ) : ℚ :=
  (ys.map fun y => (y - ys.sum / (ys.length : ℚ)) ^ 2).sum

/-- Residual sum of squares of a series about the no-intercept prediction
`slope·i`. -/
def ssResNoIntercept (ys : List ℚ) : ℚ :=
  (((List.range ys.length).zip ys).map fun p =>
    (p.2 - olsSlope ys * (p.1 : ℚ)) ^ 2).sum

/-- Result record of the spiral scorer (scores before the one-decimal output
rounding; `recommendation` is `none` on the computed path, where an external
collaborator fills it in). -/
structure SpiralResult where
  tremorScore : ℚ
  smoothnessScore : ℚ
  speedScore : ℚ
  consistencyScore : ℚ
  overallScore : ℚ
  riskLevel : Risk
  recommendation : Option String
deriving DecidableEq

/-- Fixed fallback message returned when fewer than 50 points were drawn. -/
def spiralInsufficientRec : String :=
  "Not enough drawing data to perform an analysis. Please trace the spiral more completely."

/-- The spiral scoring flow: fewer than 50 points yields the fixed
InsufficientData record; otherwise the four subscores, the weighted overall
score and the 50/75 risk banding. -/
def analyzeSpiralDrawingFlow (s : ℚ → ℚ) (points : List Point) : SpiralResult :=
  if points.length < 50 then
    { tremorScore := 0, smoothnessScore := 0, speedScore := 0
      consistencyScore := 0, overallScore := 0
      riskLevel := Risk.Low, recommendation := some spiralInsufficientRec }
  else
    let tremorScore := calculateTremor s points
    let smoothnessScore := calculateSmoothness s points
    let speedScore := calculateSpeedScore s points
    let consistencyScore := calculateConsistency s points
    let overallScore := (100 - tremorScore) * 0.25 + smoothnessScore * 0.30 +
      speedScore * 0.20 + consistencyScore * 0.25
    let riskLevel :=
      if overallScore < 50 then Risk.High
      else if overallScore < 75 then Risk.Moderate
      else Risk.Low
    { tremorScore, smoothnessScore, speedScore, consistencyScore, overallScore
      riskLevel, recommendation := none }

end Spiral

namespace Tapping

/-- Piecewise-linear speed score keyed on taps per second. -/
def calculateSpeedScore (tapsPerSecond : ℚ) : ℚ :=
  if tapsPerSecond ≥ 6 then 100
  else if tapsPerSecond > 4.5 then 80 + (tapsPerSecond - 4.5) / 1.5 * 20
  else if tapsPerSecond > 3 then 60 + (tapsPerSecond - 3) / 1.5 * 20
  else if tapsPerSecond > 1.5 then 30 + (tapsPerSecond - 1.5) / 1.5 * 30
  else max 0 (tapsPerSecond / 1.5 * 30)

/-- Consistency score from the coefficient of variation of the inter-tap
intervals (`cv = 1` when the mean interval is not positive); 50 when fewer
than 2 taps or fewer than 2 intervals. -/
def calculateConsistency (s : ℚ → ℚ) (tapTimes : List ℚ) : ℚ :=
  if tapTimes.length < 2 then 50
  else
    let intervals := diffs tapTimes
    if intervals.length < 2 then 50
    else
      let meanInterval := intervals.sum / (intervals.length : ℚ)
      let stdInterval :=
        s ((intervals.map fun x => (x - meanInterval) ^ 2).sum / (intervals.length : ℚ))
      let cv := if meanInterval > 0 then stdInterval / meanInterval else 1
      max 0 (100 - cv * 100)

/-- Rhythm score from the lag-1 autocorrelation of the z-normalised
inter-tap intervals, mapped through `clamp((autocorr + 0.5)·100, 0, 100)`;
50 when fewer than 3 intervals or zero mean, 100 when the standard deviation
is 0. -/
def calculateRhythm (s : ℚ → ℚ) (tapTimes : List ℚ) : ℚ :=
  let intervals := diffs tapTimes
  if intervals.length < 3 then 50
  else
    let mean := intervals.sum / (intervals.length : ℚ)
    if mean = 0 then 50
    else
      let std := s ((intervals.map fun v => (v - mean) ^ 2).sum / (intervals.length : ℚ))
      if std = 0 then 100
      else
        let normalized := intervals.map fun v => (v - mean) / std
        let autocorr :=
          ((normalized.zip normalized.tail).map fun p => p.1 * p.2).sum /
            ((normalized.length : ℚ) - 1)
        min 100 (max 0 ((autocorr + 0.5) * 100))

/-- Taps of the early half of the test (at or before the temporal midpoint
`duration/2`). -/
def earlyTaps (tapTimes : List ℚ) (duration : ℚ) : List ℚ :=
  tapTimes.filter fun t => t ≤ duration / 2

/-- Taps of the late half of the test (after the temporal midpoint). -/
def lateTaps (tapTimes : List ℚ) (duration : ℚ) : List ℚ :=
  tapTimes.filter fun t => t > duration / 2

/-- Mean inter-tap interval of a tap list. -/
def meanInterval (taps : List ℚ) : ℚ :=
  (diffs taps).sum / ((diffs taps).length : ℚ)

/-- Fatigue score: taps are split at the temporal midpoint `duration/2`; the
mean inter-tap interval of each half is compared; 100 when fewer than 10
taps, either half has fewer than 5 taps, or either half has no intervals;
50 when the early mean interval is 0. -/
def calculateFatigue (tapTimes : List ℚ) (duration : ℚ) : ℚ :=
  if tapTimes.length < 10 then 100
  else
    let early := earlyTaps tapTimes duration
    let late := lateTaps tapTimes duration
    if early.length < 5 ∨ late.length < 5 then 100
    else
      let earlyIntervals := diffs early
      let lateIntervals := diffs late
      if earlyIntervals.length = 0 ∨ lateIntervals.length = 0 then 100
      else
        let meanEarlyInterval := earlyIntervals.sum / (earlyIntervals.length : ℚ)
        let meanLateInterval := lateIntervals.sum / (lateIntervals.length : ℚ)
        if meanEarlyInterval = 0 then 50
        else
          let intervalIncrease :=
            (meanLateInterval - meanEarlyInterval) / meanEarlyInterval * 100
          max 0 (min 100 (100 - intervalIncrease))

/-- Result record of the tapping scorer (scores before output rounding). -/
structure TappingResult where
  tapCount : ℕ
  tapsPerSecond : ℚ
  speedScore : ℚ
  consistencyScore : ℚ
  rhythmScore : ℚ
  fatigueScore : ℚ
  overallScore : ℚ
  riskLevel : Risk
  recommendation : Option String
deriving DecidableEq

/-- Fixed fallback message returned when fewer than 10 taps were recorded. -/
def tappingInsufficientRec : String :=
  "Not enough tapping data for a complete analysis. Please tap more consistently for the full duration."

/-- The tapping scoring flow: timestamps are in milliseconds and `duration`
in seconds; fewer than 10 taps yields the fallback record; otherwise the four
subscores (on times converted to seconds), the weighted overall score and the
50/70 risk banding.  No validation of `duration` is performed. -/
def analyzeTappingPatternsFlow (s : ℚ → ℚ) (tapTimestamps : List ℚ)
    (duration : ℚ) : TappingResult :=
  if tapTimestamps.length < 10 then
    { tapCount := tapTimestamps.length
      tapsPerSecond := (tapTimestamps.length : ℚ) / duration
      speedScore := 0, consistencyScore := 0, rhythmScore := 0, fatigueScore := 0
      overallScore := 0, riskLevel := Risk.Low
      recommendation := some tappingInsufficientRec }
  else
    let tapTimesInSeconds := tapTimestamps.map fun t => t / 1000
    let tapCount := tapTimesInSeconds.length
    let tapsPerSecond := (tapCount : ℚ) / duration
    let speedScore := calculateSpeedScore tapsPerSecond
    let consistencyScore := calculateConsistency s tapTimesInSeconds
    let rhythmScore := calculateRhythm s tapTimesInSeconds
    let fatigueScore := calculateFatigue tapTimesInSeconds duration
    let overallScore := speedScore * 0.35 + consistencyScore * 0.35 +
      rhythmScore * 0.20 + fatigueScore * 0.10
    let riskLevel :=
      if overallScore < 50 then Risk.High
      else if overallScore < 70 then Risk.Moderate
      else Risk.Low
    { tapCount, tapsPerSecond, speedScore, consistencyScore, rhythmScore
      fatigueScore, overallScore, riskLevel, recommendation := none }

end Tapping

namespace Reaction

/-- Reaction-time score: linear map anchored at 280 ms (score 100) and
800 ms (score 0), clamped to [0,100]. -/
def calculateReactionTimeScore (avgTime : ℚ) : ℚ :=
  max 0 (min 100 (100 - (avgTime - 280) / (800 - 280) * 100))

/-- Reaction consistency score: linear map of the standard deviation anchored
at 60 ms (score 100) and 250 ms (score 0), clamped to [0,100]. -/
def calculateConsistencyScore (stdDev : ℚ) : ℚ :=
  max 0 (min 100 (100 - (stdDev - 60) / (250 - 60) * 100))

/-- Result record of the reaction-time scorer (scores before output
rounding); the recommendation strings are fixed local text in the source. -/
structure ReactionResult where
  averageTime : ℚ
  reactionTimeScore : ℚ
  reactionConsistencyScore : ℚ
  overallScore : ℚ
  riskLevel : Risk
  recommendation : String
deriving DecidableEq

/-- Fixed fallback message returned when fewer than 3 trials were recorded. -/
def reactionInsufficientRec : String :=
  "Not enough data for a complete analysis. Please complete all trials."

/-- Fixed recommendation for a High-risk reaction result. -/
def reactionHighRec : String :=
  "Significant slowness or inconsistency in reaction time was detected. This may indicate a change in cognitive-motor processing speed. We strongly recommend sharing these results with your healthcare provider."

/-- Fixed recommendation for a Moderate-risk reaction result. -/
def reactionModerateRec : String :=
  "Some inconsistency or slowness in reaction time was observed. Factors like age, fatigue, or distraction can affect results. Consider re-testing and monitoring your scores over time."

/-- Fixed recommendation for a Low-risk reaction result. -/
def reactionLowRec : String :=
  "Your reaction time and consistency are within a normal range. This indicates good cognitive-motor performance. Continue with regular monitoring."

/-- The reaction-time scoring flow: fewer than 3 trials yields the fallback
record; otherwise the two subscores from the mean and population standard
deviation of the trial latencies, the 60/40 weighted overall score and the
50/70 risk banding. -/
def analyzeReactionTimeFlow (s : ℚ → ℚ) (reactionTimes : List ℚ) : ReactionResult :=
  if reactionTimes.length < 3 then
    { averageTime := 0, reactionTimeScore := 0, reactionConsistencyScore := 0
      overallScore := 0, riskLevel := Risk.Low
      recommendation := reactionInsufficientRec }
  else
    let averageTime := reactionTimes.sum / (reactionTimes.length : ℚ)
    let variance :=
      (reactionTimes.map fun t => (t - averageTime) ^ 2).sum / (reactionTimes.length : ℚ)
    let stdDev := s variance
    let reactionTimeScore := calculateReactionTimeScore averageTime
    let reactionConsistencyScore := calculateConsistencyScore stdDev
    let overallScore := reactionTimeScore * 0.6 + reactionConsistencyScore * 0.4
    if overallScore < 50 then
      { averageTime, reactionTimeScore, reactionConsistencyScore, overallScore
        riskLevel := Risk.High, recommendation := reactionHighRec }
    else if overallScore < 70 then
      { averageTime, reactionTimeScore, reactionConsistencyScore, overallScore
        riskLevel := Risk.Moderate, recommendation := reactionModerateRec }
    else
      { averageTime, reactionTimeScore, reactionConsistencyScore, overallScore
        riskLevel := Risk.Low, recommendation := reactionLowRec }

end Reaction

namespace Voice

/-- Qualitative pitch label supplied by the external voice classifier. -/
inductive Pitch where
  | monopitch
  | varied
  | natural
deriving DecidableEq, Fintype

/-- Qualitative volume label supplied by the external voice classifier. -/
inductive Volume where
  | monoloudness
  | trailing_off
  | consistent
deriving DecidableEq, Fintype

/-- Qualitative clarity label supplied by the external voice classifier. -/
inductive Clarity where
  | slurred
  | imprecise
  | crisp
deriving DecidableEq, Fintype

/-- Qualitative vocal-tremor label supplied by the external voice
classifier (higher mapped score is worse). -/
inductive VocalTremor where
  | none
  | slight
  | moderate
  | significant
deriving DecidableEq, Fintype

/-- The externally produced qualitative voice assessment. -/
structure Qualitative where
  pitch : Pitch
  volume : Volume
  clarity : Clarity
  tremor : VocalTremor
deriving DecidableEq

/-- Fixed pitch lookup table. -/
def pitchMap : Pitch → ℚ
  | Pitch.monopitch => 20
  | Pitch.varied => 70
  | Pitch.natural => 95

/-- Fixed volume lookup table. -/
def volumeMap : Volume → ℚ
  | Volume.monoloudness => 25
  | Volume.trailing_off => 50
  | Volume.consistent => 95

/-- Fixed clarity lookup table. -/
def clarityMap : Clarity → ℚ
  | Clarity.slurred => 20
  | Clarity.imprecise => 60
  | Clarity.crisp => 95

/-- Fixed tremor lookup table (higher is worse). -/
def tremorMap : VocalTremor → ℚ
  | VocalTremor.none => 5
  | VocalTremor.slight => 30
  | VocalTremor.moderate => 65
  | VocalTremor.significant => 90

/-- Numeric subscores derived from a qualitative assessment. -/
structure Scores where
  pitchScore : ℚ
  volumeScore : ℚ
  clarityScore : ℚ
  tremorScore : ℚ
deriving DecidableEq

/-- Maps the qualitative assessment to numeric subscores via the fixed
lookup tables. -/
def mapQualitativeToScores (q : Qualitative) : Scores :=
  { pitchScore := pitchMap q.pitch
    volumeScore := volumeMap q.volume
    clarityScore := clarityMap q.clarity
    tremorScore := tremorMap q.tremor }

/-- Result record of the voice scorer (scores before output rounding). -/
structure VoiceResult where
  pitchScore : ℚ
  volumeScore : ℚ
  clarityScore : ℚ
  tremorScore : ℚ
  overallScore : ℚ
  riskLevel : Risk
  recommendation : Option String
deriving DecidableEq

/-- The local scoring part of the voice flow: the qualitative assessment (the
output of the external classifier) is mapped through the lookup tables, the
weighted overall score is formed and banded at 50/75. -/
def analyzeVoiceRecordingFlow (q : Qualitative) : VoiceResult :=
  let scores := mapQualitativeToScores q
  let overallScore := scores.clarityScore * 0.4 + scores.volumeScore * 0.25 +
    scores.pitchScore * 0.2 + (100 - scores.tremorScore) * 0.15
  let riskLevel :=
    if overallScore < 50 then Risk.High
    else if 50 ≤ overallScore ∧ overallScore < 75 then Risk.Moderate
    else Risk.Low
  { pitchScore := scores.pitchScore, volumeScore := scores.volumeScore
    clarityScore := scores.clarityScore, tremorScore := scores.tremorScore
    overallScore, riskLevel, recommendation := none }

end Voice

namespace Spiral

/-- Root-mean-square of the acceleration magnitudes. -/
def rmsAccelerations (s : ℚ → ℚ) (points : List Point) : ℚ :=
  s (((accelerations s points).map fun b => b * b).sum /
    ((accelerations s points).length : ℚ))

/-- Boundedness predicate for a spiral result: every subscore and the overall
score lies in [0, 100]. -/
def SpiralResultOK (r : SpiralResult) : Prop :=
  0 ≤ r.tremorScore ∧ r.tremorScore ≤ 100 ∧
  0 ≤ r.smoothnessScore ∧ r.smoothnessScore ≤ 100 ∧
  0 ≤ r.speedScore ∧ r.speedScore ≤ 100 ∧
  0 ≤ r.consistencyScore ∧ r.consistencyScore ≤ 100 ∧
  0 ≤ r.overallScore ∧ r.overallScore ≤ 100

/-- Ten spiral points whose radial distances from their centroid are exactly
the affine sequence `15 + 2·i` (intercept 15, slope 2): the points sit on the
x-axis at signed offsets `±(15 + 2·i)` chosen so that the centroid is the
origin. -/
def interceptPts : List Point :=
  [⟨15, 0, 0⟩, ⟨17, 0, 100⟩, ⟨19, 0, 200⟩, ⟨21, 0, 300⟩, ⟨23, 0, 400⟩,
   ⟨25, 0, 500⟩, ⟨-27, 0, 600⟩, ⟨-29, 0, 700⟩, ⟨-31, 0, 800⟩, ⟨-33, 0, 900⟩]

/-- Five collinear points, one second apart, whose velocity magnitudes grow
by 2 per step: they yield exactly 4 velocities and 3 accelerations, each of
magnitude 2. -/
def threeAccelPts : List Point :=
  [⟨0, 0, 0⟩, ⟨0, 0, 1000⟩, ⟨2, 0, 2000⟩, ⟨6, 0, 3000⟩, ⟨12, 0, 4000⟩]

/-- Six collinear points extending `threeAccelPts` by one more step, giving
5 velocities and 4 accelerations of magnitude 2. -/
def fourAccelPts : List Point :=
  [⟨0, 0, 0⟩, ⟨0, 0, 1000⟩, ⟨2, 0, 2000⟩, ⟨6, 0, 3000⟩, ⟨12, 0, 4000⟩,
   ⟨20, 0, 5000⟩]

/-- Fifty coincident points with strictly increasing timestamps (a degenerate
but well-formed drawing), used to exercise the computed path of the spiral
flow on a concrete input. -/
def fiftyPts : List Point := (List.range 50).map fun i : ℕ => ⟨0, 0, (i : ℚ)⟩

/-- Ten coincident points, whose radial distances are all 0. -/
def coincidentPts : List Point := (List.range 10).map fun _ => ⟨5, 5, 0⟩

end Spiral

namespace Tapping

/-- Boundedness predicate for a tapping result: taps per second is
nonnegative and every subscore and the overall score lies in [0, 100]. -/
def TappingResultOK (r : TappingResult) : Prop :=
  0 ≤ r.tapsPerSecond ∧
  0 ≤ r.speedScore ∧ r.speedScore ≤ 100 ∧
  0 ≤ r.consistencyScore ∧ r.consistencyScore ≤ 100 ∧
  0 ≤ r.rhythmScore ∧ r.rhythmScore ≤ 100 ∧
  0 ≤ r.fatigueScore ∧ r.fatigueScore ≤ 100 ∧
  0 ≤ r.overallScore ∧ r.overallScore ≤ 100

/-- Ten tap times (in seconds) with five coincident early taps, so that the
mean early-half interval is 0. -/
def zeroEarlyMeanTaps : List ℚ := [1, 1, 1, 1, 1, 6, 7, 8, 9, 10]

/-- Ten tap times (in seconds) that slow down from 1 s intervals in the early
half to 1.5 s intervals in the late half. -/
def slowingTaps : List ℚ := [0, 1, 2, 3, 4, 11/2, 7, 17/2, 10, 23/2]

/-- Ten tap timestamps in milliseconds, one second apart. -/
def evenTapsMs : List ℚ :=
  [0, 1000, 2000, 3000, 4000, 5000, 6000, 7000, 8000, 9000]

end Tapping

namespace Reaction

/-- Boundedness predicate for a reaction result: both subscores and the
overall score lie in [0, 100]. -/
def ReactionResultOK (r : ReactionResult) : Prop :=
  0 ≤ r.reactionTimeScore ∧ r.reactionTimeScore ≤ 100 ∧
  0 ≤ r.reactionConsistencyScore ∧ r.reactionConsistencyScore ≤ 100 ∧
  0 ≤ r.overallScore ∧ r.overallScore ≤ 100

end Reaction

namespace Voice

/-- Boundedness predicate for a voice result: every subscore and the overall
score lies in [0, 100]. -/
def VoiceResultOK (r : VoiceResult) : Prop :=
  0 ≤ r.pitchScore ∧ r.pitchScore ≤ 100 ∧
  0 ≤ r.volumeScore ∧ r.volumeScore ≤ 100 ∧
  0 ≤ r.clarityScore ∧ r.clarityScore ≤ 100 ∧
  0 ≤ r.tremorScore ∧ r.tremorScore ≤ 100 ∧
  0 ≤ r.overallScore ∧ r.overallScore ≤ 100

end Voice

/-! ## Theorems -/

theorem sqrtOK_rat_sqrt : SqrtOK Rat.sqrt := fun _ => Rat.sqrt_nonneg _

theorem rat_sqrt_eval (a q : ℚ) (ha : 0 ≤ a) (h : a * a = q) :
    Rat.sqrt q = a := by
  rw [← h, Rat.sqrt_eq, abs_of_nonneg ha]

theorem rat_sqrt_zero : Rat.sqrt 0 = 0 := rat_sqrt_eval 0 0 le_rfl (by norm_num)

theorem rat_sqrt_four : Rat.sqrt 4 = 2 := rat_sqrt_eval 2 4 (by norm_num) (by norm_num)

/-- Claim C4: for every spiral input with fewer than 50 points, the spiral
flow returns the exact InsufficientData result — all subscores 0, overall 0,
risk Low and the fixed not-enough-drawing-data message — and never fails. -/
theorem spiral_insufficient_result (s : ℚ → ℚ) (points : List Spiral.Point)
    (h : points.length < 50) :
    Spiral.analyzeSpiralDrawingFlow s points =
      { tremorScore := 0, smoothnessScore := 0, speedScore := 0
        consistencyScore := 0, overallScore := 0, riskLevel := Risk.Low
        recommendation := some Spiral.spiralInsufficientRec } := by
  unfold Spiral.analyzeSpiralDrawingFlow
  rw [if_pos h]

/-- Witness for C4: a 5-point drawing yields exactly the fixed
InsufficientData record. -/
theorem spiral_insufficient_result_witness :
    Spiral.threeAccelPts.length < 50 ∧
    Spiral.analyzeSpiralDrawingFlow Rat.sqrt Spiral.threeAccelPts =
      { tremorScore := 0, smoothnessScore := 0, speedScore := 0
        consistencyScore := 0, overallScore := 0, riskLevel := Risk.Low
        recommendation := some Spiral.spiralInsufficientRec } :=
  ⟨by decide, spiral_insufficient_result Rat.sqrt Spiral.threeAccelPts (by decide)⟩

/-- Claim C9: on the reaction-time input [280, 280, 280] ms the scorer
returns reaction-time score 100, consistency score 100, overall 100 and risk
Low (together with the fixed Low-risk recommendation text). -/
theorem reaction_perfect_input :
    Reaction.analyzeReactionTimeFlow Rat.sqrt [280, 280, 280] =
      { averageTime := 280, reactionTimeScore := 100
        reactionConsistencyScore := 100, overallScore := 100
        riskLevel := Risk.Low, recommendation := Reaction.reactionLowRec } := by
  norm_num [Reaction.analyzeReactionTimeFlow, Reaction.calculateReactionTimeScore,
    Reaction.calculateConsistencyScore, rat_sqrt_zero, min_def, max_def]

/-- Claim C10: over all 108 qualitative voice assessments the overall score
lies in [19.75, 95]; 19.75 is attained exactly at (monopitch, monoloudness,
slurred, significant) and 95 exactly at (natural, consistent, crisp, none). -/
theorem voice_overall_range :
    ∀ (p : Voice.Pitch) (v : Voice.Volume) (c : Voice.Clarity)
      (t : Voice.VocalTremor),
      (79 / 4 ≤ (Voice.analyzeVoiceRecordingFlow ⟨p, v, c, t⟩).overallScore ∧
        (Voice.analyzeVoiceRecordingFlow ⟨p, v, c, t⟩).overallScore ≤ 95) ∧
      ((Voice.analyzeVoiceRecordingFlow ⟨p, v, c, t⟩).overallScore = 79 / 4 ↔
        (p = Voice.Pitch.monopitch ∧ v = Voice.Volume.monoloudness ∧
          c = Voice.Clarity.slurred ∧ t = Voice.VocalTremor.significant)) ∧
      ((Voice.analyzeVoiceRecordingFlow ⟨p, v, c, t⟩).overallScore = 95 ↔
        (p = Voice.Pitch.natural ∧ v = Voice.Volume.consistent ∧
          c = Voice.Clarity.crisp ∧ t = Voice.VocalTremor.none)) := by
  intro p v c t
  cases p <;> cases v <;> cases c <;> cases t <;>
    norm_num [Voice.analyzeVoiceRecordingFlow, Voice.mapQualitativeToScores,
      Voice.pitchMap, Voice.volumeMap, Voice.clarityMap, Voice.tremorMap] <;>
    decide

/-- Counterexample to claim C3 as stated: the empty spiral input produces
risk Low with overall score 0, yet the generic classifier at the spiral cuts
(50, 75) maps an overall score of 0 to High — a fallback riskLevel is not
determined from the overall score by the thresholding rule. -/
theorem risk_classify_counterexample :
    (Spiral.analyzeSpiralDrawingFlow Rat.sqrt []).riskLevel = Risk.Low ∧
    (Spiral.analyzeSpiralDrawingFlow Rat.sqrt []).overallScore = 0 ∧
    classify (Spiral.analyzeSpiralDrawingFlow Rat.sqrt []).overallScore 50 75 =
      Risk.High := by
  decide

/-- Counterexample to claim C5 as stated: a 10-point drawing whose radial
distances are exactly the affine-in-index sequence `15 + 2·i` (a perfect
straight-line fit with nonzero intercept, ordinary-least-squares R² = 1)
receives consistency score 0, not 100, because the source measures residuals
against `slope·i` with no intercept term. -/
theorem consistency_ols_counterexample :
    Spiral.interceptPts.length = 10 ∧
    Spiral.radialDistances Rat.sqrt Spiral.interceptPts =
      (List.range 10).map (fun i : ℕ => 15 + 2 * (i : ℚ)) ∧
    Spiral.calculateConsistency Rat.sqrt Spiral.interceptPts = 0 := by
  have hrange : List.range 10 = [0, 1, 2, 3, 4, 5, 6, 7, 8, 9] := rfl
  have h15 : Rat.sqrt 225 = 15 := rat_sqrt_eval 15 225 (by norm_num) (by norm_num)
  have h17 : Rat.sqrt 289 = 17 := rat_sqrt_eval 17 289 (by norm_num) (by norm_num)
  have h19 : Rat.sqrt 361 = 19 := rat_sqrt_eval 19 361 (by norm_num) (by norm_num)
  have h21 : Rat.sqrt 441 = 21 := rat_sqrt_eval 21 441 (by norm_num) (by norm_num)
  have h23 : Rat.sqrt 529 = 23 := rat_sqrt_eval 23 529 (by norm_num) (by norm_num)
  have h25 : Rat.sqrt 625 = 25 := rat_sqrt_eval 25 625 (by norm_num) (by norm_num)
  have h27 : Rat.sqrt 729 = 27 := rat_sqrt_eval 27 729 (by norm_num) (by norm_num)
  have h29 : Rat.sqrt 841 = 29 := rat_sqrt_eval 29 841 (by norm_num) (by norm_num)
  have h31 : Rat.sqrt 961 = 31 := rat_sqrt_eval 31 961 (by norm_num) (by norm_num)
  have h33 : Rat.sqrt 1089 = 33 := rat_sqrt_eval 33 1089 (by norm_num) (by norm_num)
  norm_num [Spiral.calculateConsistency, Spiral.consistencyOfDistances,
    Spiral.radialDistances, Spiral.interceptPts,
    hrange, h15, h17, h19, h21, h23, h25, h27, h29, h31, h33, max_def]

/-- Counterexample to claim C6 as stated: a 5-point drawing for which exactly
3 accelerations are computed (fewer than 4) has tremor score 1/10, not 0 —
the source's guard is on having fewer than 4 velocities, not fewer than 4
accelerations. -/
theorem tremor_guard_counterexample :
    (Spiral.velocities Spiral.threeAccelPts).length = 4 ∧
    (Spiral.accelerations Rat.sqrt Spiral.threeAccelPts).length = 3 ∧
    Spiral.calculateTremor Rat.sqrt Spiral.threeAccelPts = 1 / 10 := by
  norm_num [Spiral.calculateTremor, Spiral.velocities, Spiral.accelerations,
    Spiral.threeAccelPts, List.filterMap_cons, rat_sqrt_four, min_def]

/-- Counterexample to claim C7 as stated: ten taps whose early half consists
of five coincident taps give a mean early-half interval of 0, and the fatigue
score is then 50, not the claimed default of 100. -/
theorem fatigue_early_mean_counterexample :
    Tapping.meanInterval
      (Tapping.earlyTaps Tapping.zeroEarlyMeanTaps 10) = 0 ∧
    (Tapping.earlyTaps Tapping.zeroEarlyMeanTaps 10).length = 5 ∧
    (Tapping.lateTaps Tapping.zeroEarlyMeanTaps 10).length = 5 ∧
    Tapping.calculateFatigue Tapping.zeroEarlyMeanTaps 10 = 50 := by
  norm_num [Tapping.calculateFatigue, Tapping.earlyTaps, Tapping.lateTaps,
    Tapping.meanInterval, diffs, Tapping.zeroEarlyMeanTaps, List.filter_cons,
    max_def, min_def]

/-- Counterexample to claim C8 as stated: for ten evenly spaced taps and the
negative duration −1 the tapping flow does not fail fast and does not signal
an invalid input: it returns an ordinary fully scored result (here with
tapsPerSecond −10, overall 65 and risk Moderate). -/
theorem tapping_negative_duration_counterexample :
    Tapping.analyzeTappingPatternsFlow Rat.sqrt Tapping.evenTapsMs (-1) =
      { tapCount := 10, tapsPerSecond := -10, speedScore := 0
        consistencyScore := 100, rhythmScore := 100, fatigueScore := 100
        overallScore := 65, riskLevel := Risk.Moderate
        recommendation := none } := by
  norm_num [Tapping.analyzeTappingPatternsFlow, Tapping.calculateSpeedScore,
    Tapping.calculateConsistency, Tapping.calculateRhythm, Tapping.calculateFatigue,
    Tapping.earlyTaps, Tapping.lateTaps, diffs, Tapping.evenTapsMs,
    List.filter_cons, rat_sqrt_zero, max_def, min_def]

theorem band_eq_classify (o lc hc : ℚ) (h : lc ≤ hc) :
    (if o < lc then Risk.High else if o < hc then Risk.Moderate else Risk.Low) =
      classify o lc hc := by
  unfold classify
  split_ifs <;> first | rfl | (exfalso; linarith)

theorem voice_band_eq_classify (o : ℚ) :
    (if o < 50 then Risk.High
      else if 50 ≤ o ∧ o < 75 then Risk.Moderate else Risk.Low) =
      classify o 50 75 := by
  unfold classify
  by_cases h1 : o < 50
  · rw [if_pos h1, if_neg (by linarith), if_neg (by linarith)]
  · by_cases h2 : o < 75
    · rw [if_neg h1, if_pos ⟨by linarith, h2⟩, if_neg (by linarith),
        if_pos (by linarith)]
    · rw [if_neg h1, if_neg (by simp [not_and]; intro; linarith),
        if_pos (by linarith)]

theorem diffs_length (l : List ℚ) : (diffs l).length = l.length - 1 := by
  unfold diffs
  rw [List.length_zipWith, List.length_tail]
  omega

theorem accelerations_length (s : ℚ → ℚ) (points : List Spiral.Point) :
    (Spiral.accelerations s points).length =
      (Spiral.velocities points).length - 1 := by
  simp only [Spiral.accelerations]
  rw [List.length_map, List.length_zip, List.length_tail]
  omega

/-- Claim C3 (amended): on every input that passes the sufficiency check the
riskLevel equals the generic thresholding rule applied to the overall score,
with cuts (50, 75) for spiral and voice and (50, 70) for tapping and
reaction, and the boundary values classify as stated (the high cut is Low,
the low cut is Moderate); the InsufficientData fallback results instead
hardcode risk Low with overall 0. -/
theorem risk_classify_sufficient :
    (∀ (s : ℚ → ℚ) (points : List Spiral.Point), 50 ≤ points.length →
      (Spiral.analyzeSpiralDrawingFlow s points).riskLevel =
        classify (Spiral.analyzeSpiralDrawingFlow s points).overallScore 50 75) ∧
    (∀ (s : ℚ → ℚ) (taps : List ℚ) (d : ℚ), 10 ≤ taps.length →
      (Tapping.analyzeTappingPatternsFlow s taps d).riskLevel =
        classify (Tapping.analyzeTappingPatternsFlow s taps d).overallScore 50 70) ∧
    (∀ (s : ℚ → ℚ) (times : List ℚ), 3 ≤ times.length →
      (Reaction.analyzeReactionTimeFlow s times).riskLevel =
        classify (Reaction.analyzeReactionTimeFlow s times).overallScore 50 70) ∧
    (∀ q : Voice.Qualitative,
      (Voice.analyzeVoiceRecordingFlow q).riskLevel =
        classify (Voice.analyzeVoiceRecordingFlow q).overallScore 50 75) ∧
    (∀ lc hc : ℚ, lc ≤ hc → classify hc lc hc = Risk.Low) ∧
    (∀ lc hc : ℚ, lc < hc → classify lc lc hc = Risk.Moderate) := by
  refine ⟨?_, ?_, ?_, ?_, ?_, ?_⟩
  · intro s points h
    unfold Spiral.analyzeSpiralDrawingFlow
    rw [if_neg (by omega)]
    dsimp only
    exact band_eq_classify _ 50 75 (by norm_num)
  · intro s taps d h
    unfold Tapping.analyzeTappingPatternsFlow
    rw [if_neg (by omega)]
    dsimp only
    exact band_eq_classify _ 50 70 (by norm_num)
  · intro s times h
    unfold Reaction.analyzeReactionTimeFlow
    rw [if_neg (by omega)]
    dsimp only
    split_ifs with h1 h2 <;> dsimp only <;> unfold classify
    · rw [if_neg (by linarith), if_neg (by linarith)]
    · rw [if_neg (by linarith), if_pos (by linarith)]
    · rw [if_pos (by linarith)]
  · intro q
    unfold Voice.analyzeVoiceRecordingFlow
    dsimp only
    exact voice_band_eq_classify _
  · intro lc hc h
    unfold classify
    rw [if_pos le_rfl]
  · intro lc hc h
    unfold classify
    rw [if_neg (by linarith), if_pos le_rfl]

/-- Witness for C3 (amended): the classification rule instantiated on the
concrete computed results of each modality, and the boundary values at the
spiral cuts. -/
theorem risk_classify_sufficient_witness :
    ((Spiral.analyzeSpiralDrawingFlow Rat.sqrt Spiral.fiftyPts).riskLevel =
      classify (Spiral.analyzeSpiralDrawingFlow Rat.sqrt Spiral.fiftyPts).overallScore
        50 75) ∧
    ((Tapping.analyzeTappingPatternsFlow Rat.sqrt Tapping.evenTapsMs 10).riskLevel =
      classify
        (Tapping.analyzeTappingPatternsFlow Rat.sqrt Tapping.evenTapsMs 10).overallScore
        50 70) ∧
    ((Reaction.analyzeReactionTimeFlow Rat.sqrt [280, 280, 280]).riskLevel =
      classify
        (Reaction.analyzeReactionTimeFlow Rat.sqrt [280, 280, 280]).overallScore
        50 70) ∧
    classify 75 50 75 = Risk.Low ∧
    classify 50 50 75 = Risk.Moderate :=
  ⟨risk_classify_sufficient.1 Rat.sqrt Spiral.fiftyPts (by simp [Spiral.fiftyPts]),
   risk_classify_sufficient.2.1 Rat.sqrt Tapping.evenTapsMs 10
     (by simp [Tapping.evenTapsMs]),
   risk_classify_sufficient.2.2.1 Rat.sqrt [280, 280, 280] (by simp),
   risk_classify_sufficient.2.2.2.2.1 50 75 (by norm_num),
   risk_classify_sufficient.2.2.2.2.2 50 75 (by norm_num)⟩

/-- Claim C2: on every input that passes the sufficiency check the overall
score equals the fixed weighted sum of that modality's subscores with the
documented constant weights, and each modality's weights sum to 1. -/
theorem overall_weighted_sum :
    (∀ (s : ℚ → ℚ) (points : List Spiral.Point), 50 ≤ points.length →
      (Spiral.analyzeSpiralDrawingFlow s points).overallScore =
        (100 - (Spiral.analyzeSpiralDrawingFlow s points).tremorScore) * 0.25 +
        (Spiral.analyzeSpiralDrawingFlow s points).smoothnessScore * 0.30 +
        (Spiral.analyzeSpiralDrawingFlow s points).speedScore * 0.20 +
        (Spiral.analyzeSpiralDrawingFlow s points).consistencyScore * 0.25) ∧
    ((0.25 : ℚ) + 0.30 + 0.20 + 0.25 = 1) ∧
    (∀ (s : ℚ → ℚ) (taps : List ℚ) (d : ℚ), 10 ≤ taps.length →
      (Tapping.analyzeTappingPatternsFlow s taps d).overallScore =
        (Tapping.analyzeTappingPatternsFlow s taps d).speedScore * 0.35 +
        (Tapping.analyzeTappingPatternsFlow s taps d).consistencyScore * 0.35 +
        (Tapping.analyzeTappingPatternsFlow s taps d).rhythmScore * 0.20 +
        (Tapping.analyzeTappingPatternsFlow s taps d).fatigueScore * 0.10) ∧
    ((0.35 : ℚ) + 0.35 + 0.20 + 0.10 = 1) ∧
    (∀ (s : ℚ → ℚ) (times : List ℚ), 3 ≤ times.length →
      (Reaction.analyzeReactionTimeFlow s times).overallScore =
        (Reaction.analyzeReactionTimeFlow s times).reactionTimeScore * 0.6 +
        (Reaction.analyzeReactionTimeFlow s times).reactionConsistencyScore * 0.4) ∧
    ((0.6 : ℚ) + 0.4 = 1) ∧
    (∀ q : Voice.Qualitative,
      (Voice.analyzeVoiceRecordingFlow q).overallScore =
        (Voice.analyzeVoiceRecordingFlow q).clarityScore * 0.4 +
        (Voice.analyzeVoiceRecordingFlow q).volumeScore * 0.25 +
        (Voice.analyzeVoiceRecordingFlow q).pitchScore * 0.2 +
        (100 - (Voice.analyzeVoiceRecordingFlow q).tremorScore) * 0.15) ∧
    ((0.4 : ℚ) + 0.25 + 0.2 + 0.15 = 1) := by
  refine ⟨?_, by norm_num, ?_, by norm_num, ?_, by norm_num, ?_, by norm_num⟩
  · intro s points h
    unfold Spiral.analyzeSpiralDrawingFlow
    rw [if_neg (by omega)]
  · intro s taps d h
    unfold Tapping.analyzeTappingPatternsFlow
    rw [if_neg (by omega)]
  · intro s times h
    unfold Reaction.analyzeReactionTimeFlow
    rw [if_neg (by omega)]
    dsimp only
    split_ifs <;> rfl
  · intro q
    rfl

/-- Witness for C2: the weighted-sum identity instantiated on concrete
sufficient inputs of the three guarded modalities. -/
theorem overall_weighted_sum_witness :
    ((Spiral.analyzeSpiralDrawingFlow Rat.sqrt Spiral.fiftyPts).overallScore =
      (100 - (Spiral.analyzeSpiralDrawingFlow Rat.sqrt Spiral.fiftyPts).tremorScore) * 0.25 +
      (Spiral.analyzeSpiralDrawingFlow Rat.sqrt Spiral.fiftyPts).smoothnessScore * 0.30 +
      (Spiral.analyzeSpiralDrawingFlow Rat.sqrt Spiral.fiftyPts).speedScore * 0.20 +
      (Spiral.analyzeSpiralDrawingFlow Rat.sqrt Spiral.fiftyPts).consistencyScore * 0.25) ∧
    ((Tapping.analyzeTappingPatternsFlow Rat.sqrt Tapping.evenTapsMs 10).overallScore =
      (Tapping.analyzeTappingPatternsFlow Rat.sqrt Tapping.evenTapsMs 10).speedScore * 0.35 +
      (Tapping.analyzeTappingPatternsFlow Rat.sqrt Tapping.evenTapsMs 10).consistencyScore * 0.35 +
      (Tapping.analyzeTappingPatternsFlow Rat.sqrt Tapping.evenTapsMs 10).rhythmScore * 0.20 +
      (Tapping.analyzeTappingPatternsFlow Rat.sqrt Tapping.evenTapsMs 10).fatigueScore * 0.10) ∧
    ((Reaction.analyzeReactionTimeFlow Rat.sqrt [280, 280, 280]).overallScore =
      (Reaction.analyzeReactionTimeFlow Rat.sqrt [280, 280, 280]).reactionTimeScore * 0.6 +
      (Reaction.analyzeReactionTimeFlow Rat.sqrt [280, 280, 280]).reactionConsistencyScore * 0.4) :=
  ⟨overall_weighted_sum.1 Rat.sqrt Spiral.fiftyPts (by simp [Spiral.fiftyPts]),
   overall_weighted_sum.2.2.1 Rat.sqrt Tapping.evenTapsMs 10
     (by simp [Tapping.evenTapsMs]),
   overall_weighted_sum.2.2.2.2.1 Rat.sqrt [280, 280, 280] (by simp)⟩

/-- Claim C8 (amended): the tapping flow performs no duration validation and
has no InvalidInput outcome: for a zero or negative duration with at least
10 taps it still takes the ordinary computed path, returning a fully scored
result (no fallback recommendation) whose tapsPerSecond is count/duration;
and with fewer than 10 taps it returns the InsufficientData record (whose
tapsPerSecond is likewise count/duration). -/
theorem tapping_no_duration_validation :
    (∀ (s : ℚ → ℚ) (taps : List ℚ) (d : ℚ), d ≤ 0 → 10 ≤ taps.length →
      (Tapping.analyzeTappingPatternsFlow s taps d).recommendation = none ∧
      (Tapping.analyzeTappingPatternsFlow s taps d).tapsPerSecond =
        (taps.length : ℚ) / d) ∧
    (∀ (s : ℚ → ℚ) (taps : List ℚ) (d : ℚ), d ≤ 0 → taps.length < 10 →
      Tapping.analyzeTappingPatternsFlow s taps d =
        { tapCount := taps.length
          tapsPerSecond := (taps.length : ℚ) / d
          speedScore := 0, consistencyScore := 0, rhythmScore := 0
          fatigueScore := 0, overallScore := 0, riskLevel := Risk.Low
          recommendation := some Tapping.tappingInsufficientRec }) := by
  constructor
  · intro s taps d hd hn
    unfold Tapping.analyzeTappingPatternsFlow
    rw [if_neg (by omega)]
    exact ⟨rfl, by dsimp only; rw [List.length_map]⟩
  · intro s taps d hd hn
    unfold Tapping.analyzeTappingPatternsFlow
    rw [if_pos hn]

/-- Witness for C8 (amended): the computed path taken on ten evenly spaced
taps with duration −1, and the InsufficientData record returned for a single
tap with duration −1. -/
theorem tapping_no_duration_validation_witness :
    ((Tapping.analyzeTappingPatternsFlow Rat.sqrt Tapping.evenTapsMs (-1)).recommendation =
      none ∧
    (Tapping.analyzeTappingPatternsFlow Rat.sqrt Tapping.evenTapsMs (-1)).tapsPerSecond =
      ((Tapping.evenTapsMs.length : ℚ) / (-1))) ∧
    Tapping.analyzeTappingPatternsFlow Rat.sqrt [1000] (-1) =
      { tapCount := 1, tapsPerSecond := -1
        speedScore := 0, consistencyScore := 0, rhythmScore := 0
        fatigueScore := 0, overallScore := 0, riskLevel := Risk.Low
        recommendation := some Tapping.tappingInsufficientRec } :=
  ⟨tapping_no_duration_validation.1 Rat.sqrt Tapping.evenTapsMs (-1) (by norm_num)
      (by simp [Tapping.evenTapsMs]),
   by
    rw [tapping_no_duration_validation.2 Rat.sqrt [1000] (-1) (by norm_num)
      (by norm_num)]
    norm_num⟩

/-- Claim C6 (amended): the spiral tremor score is 0 whenever there are fewer
than 5 points or fewer than 4 velocities survive the anti-duplicate guard
(equivalently, fewer than 3 accelerations are computed), and otherwise it
equals min(100, RMS(accelerations)/20). -/
theorem tremor_formula :
    (∀ (s : ℚ → ℚ) (points : List Spiral.Point),
      points.length < 5 ∨ (Spiral.velocities points).length < 4 →
      Spiral.calculateTremor s points = 0) ∧
    (∀ (s : ℚ → ℚ) (points : List Spiral.Point),
      5 ≤ points.length → 4 ≤ (Spiral.velocities points).length →
      Spiral.calculateTremor s points =
        min 100 (Spiral.rmsAccelerations s points / 20)) := by
  constructor
  · intro s points h
    unfold Spiral.calculateTremor
    dsimp only
    split_ifs with h1 h2 h3 <;> first | rfl | (exfalso; omega)
  · intro s points h1 h2
    have ha := accelerations_length s points
    unfold Spiral.calculateTremor
    dsimp only
    split_ifs with g1 g2 g3
    · exact absurd h1 (by omega)
    · exact absurd h2 (by omega)
    · exact absurd g3 (by omega)
    · rfl

/-- Witness for C6 (amended): both branches instantiated — the empty drawing
scores 0, and a 6-point drawing with 5 velocities scores the RMS formula. -/
theorem tremor_formula_witness :
    Spiral.calculateTremor Rat.sqrt [] = 0 ∧
    Spiral.calculateTremor Rat.sqrt Spiral.fourAccelPts =
      min 100 (Spiral.rmsAccelerations Rat.sqrt Spiral.fourAccelPts / 20) :=
  ⟨tremor_formula.1 Rat.sqrt [] (Or.inl (by norm_num)),
   tremor_formula.2 Rat.sqrt Spiral.fourAccelPts (by norm_num [Spiral.fourAccelPts])
     (by norm_num [Spiral.velocities, Spiral.fourAccelPts, List.filterMap_cons])⟩

/-- Claim C7 (amended): for at least 10 taps the fatigue score is 100 when
either half of the split at duration/2 has fewer than 5 taps, 50 (not 100)
when the mean early-half interval is 0, and otherwise
clamp(100 − percentIncrease, 0, 100). -/
theorem fatigue_formula :
    (∀ (taps : List ℚ) (d : ℚ), 10 ≤ taps.length →
      ((Tapping.earlyTaps taps d).length < 5 ∨ (Tapping.lateTaps taps d).length < 5) →
      Tapping.calculateFatigue taps d = 100) ∧
    (∀ (taps : List ℚ) (d : ℚ), 10 ≤ taps.length →
      5 ≤ (Tapping.earlyTaps taps d).length → 5 ≤ (Tapping.lateTaps taps d).length →
      Tapping.meanInterval (Tapping.earlyTaps taps d) = 0 →
      Tapping.calculateFatigue taps d = 50) ∧
    (∀ (taps : List ℚ) (d : ℚ), 10 ≤ taps.length →
      5 ≤ (Tapping.earlyTaps taps d).length → 5 ≤ (Tapping.lateTaps taps d).length →
      Tapping.meanInterval (Tapping.earlyTaps taps d) ≠ 0 →
      Tapping.calculateFatigue taps d =
        max 0 (min 100 (100 -
          (Tapping.meanInterval (Tapping.lateTaps taps d) -
            Tapping.meanInterval (Tapping.earlyTaps taps d)) /
            Tapping.meanInterval (Tapping.earlyTaps taps d) * 100))) := by
  refine ⟨?_, ?_, ?_⟩
  · intro taps d hn h
    unfold Tapping.calculateFatigue
    dsimp only
    split_ifs with h1 h2 <;> first | rfl | (exfalso; omega)
  · intro taps d hn he hl hm
    have hde := diffs_length (Tapping.earlyTaps taps d)
    have hdl := diffs_length (Tapping.lateTaps taps d)
    simp only [Tapping.meanInterval] at hm
    unfold Tapping.calculateFatigue
    dsimp only
    rw [if_neg (by omega), if_neg (by omega), if_neg (by omega), if_pos hm]
  · intro taps d hn he hl hm
    have hde := diffs_length (Tapping.earlyTaps taps d)
    have hdl := diffs_length (Tapping.lateTaps taps d)
    simp only [Tapping.meanInterval] at hm ⊢
    unfold Tapping.calculateFatigue
    dsimp only
    rw [if_neg (by omega), if_neg (by omega), if_neg (by omega), if_neg hm]

/-- Witness for C7 (amended): the clamp branch instantiated on ten taps that
slow from 1 s to 1.5 s intervals (fatigue 50), and the zero-early-mean branch
on the coincident-early-taps input (fatigue 50 by the 50-branch). -/
theorem fatigue_formula_witness :
    Tapping.calculateFatigue Tapping.zeroEarlyMeanTaps 10 = 50 ∧
    Tapping.calculateFatigue Tapping.slowingTaps 10 =
      max 0 (min 100 (100 -
        (Tapping.meanInterval (Tapping.lateTaps Tapping.slowingTaps 10) -
          Tapping.meanInterval (Tapping.earlyTaps Tapping.slowingTaps 10)) /
          Tapping.meanInterval (Tapping.earlyTaps Tapping.slowingTaps 10) * 100)) :=
  ⟨fatigue_formula.2.1 Tapping.zeroEarlyMeanTaps 10
      (by norm_num [Tapping.zeroEarlyMeanTaps])
      (by norm_num [Tapping.earlyTaps, Tapping.zeroEarlyMeanTaps, List.filter_cons])
      (by norm_num [Tapping.lateTaps, Tapping.zeroEarlyMeanTaps, List.filter_cons])
      (by norm_num [Tapping.meanInterval, Tapping.earlyTaps,
        Tapping.zeroEarlyMeanTaps, diffs, List.filter_cons]),
   fatigue_formula.2.2 Tapping.slowingTaps 10
      (by norm_num [Tapping.slowingTaps])
      (by norm_num [Tapping.earlyTaps, Tapping.slowingTaps, List.filter_cons])
      (by norm_num [Tapping.lateTaps, Tapping.slowingTaps, List.filter_cons])
      (by norm_num [Tapping.meanInterval, Tapping.earlyTaps,
        Tapping.slowingTaps, diffs, List.filter_cons])⟩

theorem mean_nonneg (l : List ℚ) (h : ∀ x ∈ l, 0 ≤ x) :
    0 ≤ l.sum / (l.length : ℚ) :=
  div_nonneg (List.sum_nonneg h) (by positivity)

theorem mem_map_nonneg {α : Type} (g : α → ℚ) (hg : ∀ a, 0 ≤ g a)
    (l : List α) : ∀ x ∈ l.map g, 0 ≤ x := by
  intro x hx
  obtain ⟨a, _, rfl⟩ := List.mem_map.mp hx
  exact hg a

theorem clamp_bounds (x : ℚ) :
    0 ≤ max 0 (min 100 x) ∧ max 0 (min 100 x) ≤ 100 :=
  ⟨le_max_left _ _, max_le (by norm_num) (min_le_left _ _)⟩

theorem jerks_nonneg (s : ℚ → ℚ) (hs : SqrtOK s) (points : List Spiral.Point) :
    ∀ x ∈ Spiral.jerks s points, 0 ≤ x := by
  unfold Spiral.jerks
  exact mem_map_nonneg _ (fun a => hs _) _

theorem speeds_nonneg (s : ℚ → ℚ) (hs : SqrtOK s) (points : List Spiral.Point) :
    ∀ x ∈ Spiral.speeds s points, 0 ≤ x := by
  intro x hx
  obtain ⟨a, _, he⟩ := List.mem_filterMap.mp hx
  dsimp only at he
  split_ifs at he with ht
  obtain rfl := Option.some.inj he
  exact div_nonneg (hs _) ht.le

theorem tremor_bounds (s : ℚ → ℚ) (hs : SqrtOK s) (points : List Spiral.Point) :
    0 ≤ Spiral.calculateTremor s points ∧ Spiral.calculateTremor s points ≤ 100 := by
  unfold Spiral.calculateTremor
  dsimp only
  split_ifs with h1 h2 h3
  · norm_num
  · norm_num
  · norm_num
  · exact ⟨le_min (by norm_num) (div_nonneg (hs _) (by norm_num)), min_le_left _ _⟩

theorem smoothness_bounds (s : ℚ → ℚ) (hs : SqrtOK s) (points : List Spiral.Point) :
    0 ≤ Spiral.calculateSmoothness s points ∧
      Spiral.calculateSmoothness s points ≤ 100 := by
  unfold Spiral.calculateSmoothness
  dsimp only
  split_ifs with h1 h2
  · norm_num
  · norm_num
  · refine ⟨le_max_left _ _, max_le (by norm_num) ?_⟩
    have hj := mean_nonneg _ (jerks_nonneg s hs points)
    linarith

theorem hundred_sub_mul_le (c k : ℚ) (hc : 0 ≤ c) (hk : 0 ≤ k) :
    100 - c * k ≤ 100 := by
  have := mul_nonneg hc hk
  linarith

theorem one_sub_div_mul_hundred_le (a b : ℚ) (ha : 0 ≤ a) (hb : 0 ≤ b) :
    (1 - a / b) * 100 ≤ 100 := by
  have := div_nonneg ha hb
  linarith

theorem speed_bounds (s : ℚ → ℚ) (hs : SqrtOK s) (points : List Spiral.Point) :
    0 ≤ Spiral.calculateSpeedScore s points ∧
      Spiral.calculateSpeedScore s points ≤ 100 := by
  unfold Spiral.calculateSpeedScore
  dsimp only
  split_ifs with h1 h2 h3
  · norm_num
  · norm_num
  · norm_num
  · refine ⟨le_max_left _ _, max_le (by norm_num) ?_⟩
    apply hundred_sub_mul_le _ _ ?_ (by norm_num)
    exact div_nonneg (hs _) (mean_nonneg _ (speeds_nonneg s hs points))

theorem consistency_bounds (s : ℚ → ℚ) (points : List Spiral.Point) :
    0 ≤ Spiral.calculateConsistency s points ∧
      Spiral.calculateConsistency s points ≤ 100 := by
  unfold Spiral.calculateConsistency Spiral.consistencyOfDistances
  dsimp only
  split_ifs with h1 h2 h3
  · norm_num
  · norm_num
  · norm_num
  · refine ⟨le_max_left _ _, max_le (by norm_num) ?_⟩
    apply one_sub_div_mul_hundred_le
    · exact List.sum_nonneg (mem_map_nonneg _ (fun p => sq_nonneg _) _)
    · exact List.sum_nonneg (mem_map_nonneg _ (fun y => sq_nonneg _) _)

theorem tapping_speed_bounds (tps : ℚ) :
    0 ≤ Tapping.calculateSpeedScore tps ∧ Tapping.calculateSpeedScore tps ≤ 100 := by
  unfold Tapping.calculateSpeedScore
  split_ifs with h1 h2 h3 h4
  · norm_num
  · constructor <;> (norm_num; linarith)
  · constructor <;> (norm_num; linarith)
  · constructor <;> (norm_num; linarith)
  · refine ⟨le_max_left _ _, max_le (by norm_num) (by norm_num; linarith)⟩

theorem tapping_consistency_bounds (s : ℚ → ℚ) (hs : SqrtOK s) (tapTimes : List ℚ) :
    0 ≤ Tapping.calculateConsistency s tapTimes ∧
      Tapping.calculateConsistency s tapTimes ≤ 100 := by
  unfold Tapping.calculateConsistency
  dsimp only
  split_ifs with h1 h2 h3
  · norm_num
  · norm_num
  · refine ⟨le_max_left _ _, max_le (by norm_num) ?_⟩
    exact hundred_sub_mul_le _ _ (div_nonneg (hs _) h3.le) (by norm_num)
  · refine ⟨le_max_left _ _, max_le (by norm_num) ?_⟩
    exact hundred_sub_mul_le _ _ (by norm_num) (by norm_num)

theorem tapping_rhythm_bounds (s : ℚ → ℚ) (tapTimes : List ℚ) :
    0 ≤ Tapping.calculateRhythm s tapTimes ∧
      Tapping.calculateRhythm s tapTimes ≤ 100 := by
  unfold Tapping.calculateRhythm
  dsimp only
  split_ifs with h1 h2 h3
  · norm_num
  · norm_num
  · norm_num
  · exact ⟨le_min (by norm_num) (le_max_left _ _), min_le_left _ _⟩

theorem tapping_fatigue_bounds (tapTimes : List ℚ) (duration : ℚ) :
    0 ≤ Tapping.calculateFatigue tapTimes duration ∧
      Tapping.calculateFatigue tapTimes duration ≤ 100 := by
  unfold Tapping.calculateFatigue
  dsimp only
  split_ifs with h1 h2 h3 h4
  · norm_num
  · norm_num
  · norm_num
  · norm_num
  · exact ⟨le_max_left _ _, max_le (by norm_num) (min_le_left _ _)⟩

theorem reaction_time_score_bounds (avgTime : ℚ) :
    0 ≤ Reaction.calculateReactionTimeScore avgTime ∧
      Reaction.calculateReactionTimeScore avgTime ≤ 100 := by
  unfold Reaction.calculateReactionTimeScore
  exact clamp_bounds _

theorem reaction_consistency_score_bounds (stdDev : ℚ) :
    0 ≤ Reaction.calculateConsistencyScore stdDev ∧
      Reaction.calculateConsistencyScore stdDev ≤ 100 := by
  unfold Reaction.calculateConsistencyScore
  exact clamp_bounds _

theorem pitchMap_bounds (p : Voice.Pitch) :
    0 ≤ Voice.pitchMap p ∧ Voice.pitchMap p ≤ 100 := by
  cases p <;> constructor <;> norm_num [Voice.pitchMap]

theorem volumeMap_bounds (v : Voice.Volume) :
    0 ≤ Voice.volumeMap v ∧ Voice.volumeMap v ≤ 100 := by
  cases v <;> constructor <;> norm_num [Voice.volumeMap]

theorem clarityMap_bounds (c : Voice.Clarity) :
    0 ≤ Voice.clarityMap c ∧ Voice.clarityMap c ≤ 100 := by
  cases c <;> constructor <;> norm_num [Voice.clarityMap]

theorem tremorMap_bounds (t : Voice.VocalTremor) :
    0 ≤ Voice.tremorMap t ∧ Voice.tremorMap t ≤ 100 := by
  cases t <;> constructor <;> norm_num [Voice.tremorMap]

theorem spiral_result_ok (s : ℚ → ℚ) (hs : SqrtOK s) (points : List Spiral.Point) :
    Spiral.SpiralResultOK (Spiral.analyzeSpiralDrawingFlow s points) := by
  unfold Spiral.analyzeSpiralDrawingFlow
  split_ifs with h
  · unfold Spiral.SpiralResultOK
    norm_num
  · have ht := tremor_bounds s hs points
    have hm := smoothness_bounds s hs points
    have hp := speed_bounds s hs points
    have hc := consistency_bounds s points
    unfold Spiral.SpiralResultOK
    dsimp only
    refine ⟨ht.1, ht.2, hm.1, hm.2, hp.1, hp.2, hc.1, hc.2, ?_, ?_⟩
    · linarith [ht.1, ht.2, hm.1, hp.1, hc.1]
    · linarith [ht.1, hm.2, hp.2, hc.2]

theorem tapping_result_ok (s : ℚ → ℚ) (hs : SqrtOK s) (taps : List ℚ) (d : ℚ)
    (hd : 0 < d) :
    Tapping.TappingResultOK (Tapping.analyzeTappingPatternsFlow s taps d) := by
  unfold Tapping.analyzeTappingPatternsFlow
  split_ifs with h
  · unfold Tapping.TappingResultOK
    dsimp only
    refine ⟨div_nonneg (by positivity) hd.le, ?_⟩
    norm_num
  · have hsp := tapping_speed_bounds ((((taps.map fun t => t / 1000).length : ℕ) : ℚ) / d)
    have hco := tapping_consistency_bounds s hs (taps.map fun t => t / 1000)
    have hrh := tapping_rhythm_bounds s (taps.map fun t => t / 1000)
    have hfa := tapping_fatigue_bounds (taps.map fun t => t / 1000) d
    unfold Tapping.TappingResultOK
    dsimp only
    refine ⟨div_nonneg (by positivity) hd.le, hsp.1, hsp.2, hco.1, hco.2,
      hrh.1, hrh.2, hfa.1, hfa.2, ?_, ?_⟩
    · linarith [hsp.1, hco.1, hrh.1, hfa.1]
    · linarith [hsp.2, hco.2, hrh.2, hfa.2]

theorem reaction_result_ok (s : ℚ → ℚ) (times : List ℚ) :
    Reaction.ReactionResultOK (Reaction.analyzeReactionTimeFlow s times) := by
  unfold Reaction.analyzeReactionTimeFlow
  dsimp only
  have hr := reaction_time_score_bounds (times.sum / (times.length : ℚ))
  have hc := reaction_consistency_score_bounds
    (s ((times.map fun t => (t - times.sum / (times.length : ℚ)) ^ 2).sum /
      (times.length : ℚ)))
  split_ifs with h1 h2 h3 <;> unfold Reaction.ReactionResultOK <;> dsimp only
  · norm_num
  · exact ⟨hr.1, hr.2, hc.1, hc.2, by linarith [hr.1, hc.1], by linarith [hr.2, hc.2]⟩
  · exact ⟨hr.1, hr.2, hc.1, hc.2, by linarith [hr.1, hc.1], by linarith [hr.2, hc.2]⟩
  · exact ⟨hr.1, hr.2, hc.1, hc.2, by linarith [hr.1, hc.1], by linarith [hr.2, hc.2]⟩

theorem voice_result_ok (q : Voice.Qualitative) :
    Voice.VoiceResultOK (Voice.analyzeVoiceRecordingFlow q) := by
  have hp := pitchMap_bounds q.pitch
  have hv := volumeMap_bounds q.volume
  have hc := clarityMap_bounds q.clarity
  have ht := tremorMap_bounds q.tremor
  unfold Voice.analyzeVoiceRecordingFlow Voice.mapQualitativeToScores
  unfold Voice.VoiceResultOK
  dsimp only
  refine ⟨hp.1, hp.2, hv.1, hv.2, hc.1, hc.2, ht.1, ht.2, ?_, ?_⟩
  · linarith [hp.1, hv.1, hc.1, ht.2]
  · linarith [hp.2, hv.2, hc.2, ht.1]

/-- Claim C1: for every valid input to the four scorers (any spiral point
sequence, any tap sequence with a positive duration, any reaction-trial
sequence, any qualitative voice assessment), every subscore of the returned
result lies in [0, 100] and the overallScore lies in [0, 100]; in the exact
arithmetic of the embedding no NaN or infinity can arise (every division the
source performs is guarded, and the guards are modelled explicitly). -/
theorem scores_bounded :
    (∀ (s : ℚ → ℚ) (points : List Spiral.Point), SqrtOK s →
      Spiral.SpiralResultOK (Spiral.analyzeSpiralDrawingFlow s points)) ∧
    (∀ (s : ℚ → ℚ) (taps : List ℚ) (d : ℚ), SqrtOK s → 0 < d →
      Tapping.TappingResultOK (Tapping.analyzeTappingPatternsFlow s taps d)) ∧
    (∀ (s : ℚ → ℚ) (times : List ℚ), SqrtOK s →
      Reaction.ReactionResultOK (Reaction.analyzeReactionTimeFlow s times)) ∧
    (∀ q : Voice.Qualitative,
      Voice.VoiceResultOK (Voice.analyzeVoiceRecordingFlow q)) :=
  ⟨fun s points hs => spiral_result_ok s hs points,
   fun s taps d hs hd => tapping_result_ok s hs taps d hd,
   fun s times _ => reaction_result_ok s times,
   voice_result_ok⟩

/-- Witness for C1: the boundedness predicates instantiated on concrete
inputs of each modality. -/
theorem scores_bounded_witness :
    Spiral.SpiralResultOK (Spiral.analyzeSpiralDrawingFlow Rat.sqrt Spiral.fiftyPts) ∧
    Tapping.TappingResultOK
      (Tapping.analyzeTappingPatternsFlow Rat.sqrt Tapping.evenTapsMs 10) ∧
    Reaction.ReactionResultOK
      (Reaction.analyzeReactionTimeFlow Rat.sqrt [280, 280, 280]) ∧
    Voice.VoiceResultOK (Voice.analyzeVoiceRecordingFlow
      ⟨Voice.Pitch.natural, Voice.Volume.consistent, Voice.Clarity.crisp,
        Voice.VocalTremor.none⟩) :=
  ⟨scores_bounded.1 Rat.sqrt Spiral.fiftyPts sqrtOK_rat_sqrt,
   scores_bounded.2.1 Rat.sqrt Tapping.evenTapsMs 10 sqrtOK_rat_sqrt (by norm_num),
   scores_bounded.2.2.1 Rat.sqrt [280, 280, 280] sqrtOK_rat_sqrt,
   scores_bounded.2.2.2 _⟩

theorem list_range_map_sum (f : ℕ → ℚ) (n : ℕ) :
    ((List.range n).map f).sum = ∑ i in Finset.range n, f i := by
  induction n with
  | zero => simp
  | succ m ih =>
      rw [List.range_succ, List.map_append, List.sum_append,
        Finset.sum_range_succ, ih]
      simp

theorem zip_self_map {α β : Type} (l : List α) (g : α → β) :
    l.zip (l.map g) = l.map fun i => (i, g i) := by
  induction l with
  | nil => rfl
  | cons a as ih => simp [ih]

theorem map_map_range_sum (g : ℕ → ℚ) (h : ℚ → ℚ) (n : ℕ) :
    (((List.range n).map g).map h).sum = ∑ i in Finset.range n, h (g i) := by
  rw [List.map_map, list_range_map_sum]
  rfl

theorem zip_range_map_sum (g : ℕ → ℚ) (h : ℕ × ℚ → ℚ) (n : ℕ) :
    (((List.range n).zip ((List.range n).map g)).map h).sum =
      ∑ i in Finset.range n, h (i, g i) := by
  rw [zip_self_map, List.map_map, list_range_map_sum]
  rfl

theorem sum_range_cast (n : ℕ) :
    (∑ i in Finset.range n, (i : ℚ)) = n * (n - 1) / 2 := by
  induction n with
  | zero => simp
  | succ m ih =>
      rw [Finset.sum_range_succ, ih]
      push_cast
      ring

theorem sum_range_cast_sq (n : ℕ) :
    (∑ i in Finset.range n, (i : ℚ) ^ 2) = n * (n - 1) * (2 * n - 1) / 6 := by
  induction n with
  | zero => simp
  | succ m ih =>
      rw [Finset.sum_range_succ, ih]
      push_cast
      ring

theorem consistency_distances_proportional (n : ℕ) (b : ℚ) (hn : 10 ≤ n) :
    Spiral.consistencyOfDistances ((List.range n).map fun i : ℕ => b * (i : ℚ)) = 100 := by
  have hN : (10 : ℚ) ≤ (n : ℚ) := by exact_mod_cast hn
  unfold Spiral.consistencyOfDistances
  dsimp only
  simp only [List.length_map, List.length_range, list_range_map_sum,
    map_map_range_sum, zip_range_map_sum]
  have h1 : (∑ i in Finset.range n, (i : ℚ)) = n * (n - 1) / 2 := sum_range_cast n
  have h2 : (∑ i in Finset.range n, (i : ℚ) ^ 2) = n * (n - 1) * (2 * n - 1) / 6 :=
    sum_range_cast_sq n
  have hy : (∑ i in Finset.range n, b * (i : ℚ)) = b * ((n : ℚ) * (n - 1) / 2) := by
    rw [← Finset.mul_sum, h1]
  have hxy : (∑ i in Finset.range n, (i : ℚ) * (b * (i : ℚ))) =
      b * ((n : ℚ) * (n - 1) * (2 * n - 1) / 6) := by
    rw [show (fun i : ℕ => (i : ℚ) * (b * (i : ℚ))) = fun i : ℕ => b * (i : ℚ) ^ 2 by
      funext i; ring, ← Finset.mul_sum, h2]
  rw [hy, hxy, h1, h2]
  have hD : (n : ℚ) * ((n : ℚ) * (n - 1) * (2 * n - 1) / 6) -
      (n : ℚ) * (n - 1) / 2 * ((n : ℚ) * (n - 1) / 2) =
      (n : ℚ) ^ 2 * ((n : ℚ) - 1) * ((n : ℚ) + 1) / 12 := by ring
  have hDpos : 0 < (n : ℚ) * ((n : ℚ) * (n - 1) * (2 * n - 1) / 6) -
      (n : ℚ) * (n - 1) / 2 * ((n : ℚ) * (n - 1) / 2) := by
    rw [hD]
    apply div_pos _ (by norm_num)
    apply mul_pos (mul_pos (pow_pos (by linarith) 2) (by linarith)) (by linarith)
  rw [if_neg (ne_of_gt hDpos)]
  have hslope : ((n : ℚ) * (b * ((n : ℚ) * (n - 1) * (2 * n - 1) / 6)) -
      (n : ℚ) * (n - 1) / 2 * (b * ((n : ℚ) * (n - 1) / 2))) /
      ((n : ℚ) * ((n : ℚ) * (n - 1) * (2 * n - 1) / 6) -
        (n : ℚ) * (n - 1) / 2 * ((n : ℚ) * (n - 1) / 2)) = b := by
    rw [div_eq_iff (ne_of_gt hDpos)]
    ring
  rw [hslope]
  rcases eq_or_ne b 0 with hb | hb
  · rw [if_pos]
    subst hb
    apply Finset.sum_eq_zero
    intro i _
    norm_num
  · have hTTne : (∑ i in Finset.range n,
        (b * (i : ℚ) - b * ((n : ℚ) * (n - 1) / 2) / (n : ℚ)) ^ 2) ≠ 0 := by
      intro h0
      have hall := (Finset.sum_eq_zero_iff_of_nonneg
        (fun i _ => sq_nonneg _)).mp h0
      have e0 := hall 0 (Finset.mem_range.mpr (by omega))
      have e1 := hall 1 (Finset.mem_range.mpr (by omega))
      rw [pow_eq_zero_iff (by norm_num), sub_eq_zero] at e0 e1
      apply hb
      have : b * ((0 : ℕ) : ℚ) = b * ((1 : ℕ) : ℚ) := by rw [e0, e1]
      simpa using this.symm
    rw [if_neg hTTne]
    have hres : (∑ i in Finset.range n, (b * (i : ℚ) - b * (i : ℚ)) ^ 2) = 0 :=
      Finset.sum_eq_zero fun i _ => by ring
    rw [hres, zero_div, sub_zero, one_mul]
    exact max_eq_right (by norm_num)

/-- Claim C5 (amended): for every spiral input with at least 10 points the
consistency score equals `max(0, r²·100)` where `r² = 1 − ssRes/ssTot` takes
its residuals about the no-intercept prediction `slope·i` with the
ordinary-least-squares slope (100 when the total variance is 0, 0 when the
slope denominator is 0); in particular any point sequence whose radial
distances are exactly proportional to the sample index receives a
consistency score of 100. -/
theorem consistency_no_intercept :
    (∀ (s : ℚ → ℚ) (points : List Spiral.Point), 10 ≤ points.length →
      Spiral.calculateConsistency s points =
        if Spiral.slopeDenom (Spiral.radialDistances s points) = 0 then 0
        else if Spiral.ssTotOf (Spiral.radialDistances s points) = 0 then 100
        else max 0 ((1 -
          Spiral.ssResNoIntercept (Spiral.radialDistances s points) /
            Spiral.ssTotOf (Spiral.radialDistances s points)) * 100)) ∧
    (∀ (s : ℚ → ℚ) (points : List Spiral.Point) (b : ℚ), 10 ≤ points.length →
      Spiral.radialDistances s points =
        (List.range points.length).map (fun i : ℕ => b * (i : ℚ)) →
      Spiral.calculateConsistency s points = 100) := by
  constructor
  · intro s points h
    unfold Spiral.calculateConsistency
    rw [if_neg (by omega)]
    unfold Spiral.consistencyOfDistances Spiral.ssResNoIntercept Spiral.olsSlope
      Spiral.slopeDenom Spiral.ssTotOf
    rfl
  · intro s points b hlen hd
    have heq : Spiral.calculateConsistency s points =
        Spiral.consistencyOfDistances (Spiral.radialDistances s points) := by
      unfold Spiral.calculateConsistency
      rw [if_neg (by omega)]
    rw [heq, hd]
    exact consistency_distances_proportional points.length b hlen

/-- Witness for C5 (amended): both conjuncts instantiated on ten coincident
points — their radial distances are `0·i` (proportional to index with factor
0), the formula and the score both evaluate, and the score is 100. -/
theorem consistency_no_intercept_witness :
    (Spiral.calculateConsistency Rat.sqrt Spiral.coincidentPts =
      if Spiral.slopeDenom (Spiral.radialDistances Rat.sqrt Spiral.coincidentPts) = 0
        then 0
      else if Spiral.ssTotOf (Spiral.radialDistances Rat.sqrt Spiral.coincidentPts) = 0
        then 100
      else max 0 ((1 -
        Spiral.ssResNoIntercept (Spiral.radialDistances Rat.sqrt Spiral.coincidentPts) /
          Spiral.ssTotOf (Spiral.radialDistances Rat.sqrt Spiral.coincidentPts)) * 100)) ∧
    Spiral.calculateConsistency Rat.sqrt Spiral.coincidentPts = 100 :=
  ⟨consistency_no_intercept.1 Rat.sqrt Spiral.coincidentPts
      (by norm_num [Spiral.coincidentPts]),
   consistency_no_intercept.2 Rat.sqrt Spiral.coincidentPts 0
      (by norm_num [Spiral.coincidentPts])
      (by norm_num [Spiral.radialDistances, Spiral.coincidentPts, rat_sqrt_zero,
        List.map_map, Function.comp])⟩

end Neuro
